import Mathlib

/-!
Verification development for the `event-dispatcher` service.

The development shallowly embeds the core of the repository:
* the JavaScript runtime values flowing through the service (`JSValue`),
* the type-keyed event dispatcher (`DomainEventDispatcher`),
* the Socket.IO adapter (auth middleware, user-socket map, delivery),
* the event-validation service (`EventService`),
* the two domain handlers and the notification relay adapter.

Machine numbers are modelled as rationals (`Rat`); the embedding performs no
arithmetic on them, only strict equality against literal `0` and
stringification, so the float/rational difference is not observable in the
properties proved here.
-/

namespace EventDispatcherSpec

/-- Model of a JavaScript runtime value, as far as the service observes it:
`null`, `undefined`, strings, numbers, booleans, arrays and plain objects
(association lists of fields; keys are assumed unique, as produced by JS
object literals). -/
inductive JSValue where
  | null : JSValue
  | undefined : JSValue
  | str : String → JSValue
  | num : Rat → JSValue
  | bool : Bool → JSValue
  | arr : List JSValue → JSValue
  | obj : List (String × JSValue) → JSValue
  deriving Repr

/-- JavaScript truthiness (`if (v)`): `null`, `undefined`, `""`, `0` and
`false` are falsy; every object and array is truthy. -/
def jsTruthy : JSValue → Bool
  | .null => false
  | .undefined => false
  | .str s => !(s == "")
  | .num n => !(n == 0)
  | .bool b => b
  | .arr _ => true
  | .obj _ => true

/-- Whether a value is `null` or `undefined` (property reads on these throw). -/
def jsNullish : JSValue → Bool
  | .null => true
  | .undefined => true
  | _ => false

/-- Property read on a non-nullish value: objects look up the field, arrays and
strings expose `length`, and every other read yields `undefined` (as in JS,
where e.g. `(5).length` is `undefined`). -/
def jsGetD : JSValue → String → JSValue
  | .obj fs, k =>
      match fs.find? (fun q => q.1 == k) with
      | some q => q.2
      | none => .undefined
  | .arr xs, k => if k == "length" then .num xs.length else .undefined
  | .str s, k => if k == "length" then .num s.length else .undefined
  | _, _ => .undefined

/-- Property read `v.k` with JS error behaviour: reading a property of `null`
or `undefined` throws a native `TypeError`; otherwise it yields `jsGetD`. -/
def jsGet (v : JSValue) (k : String) : Except String JSValue :=
  match v with
  | .null => .error ("TypeError: Cannot read properties of null (reading " ++ k ++ ")")
  | .undefined => .error ("TypeError: Cannot read properties of undefined (reading " ++ k ++ ")")
  | w => .ok (jsGetD w k)

/-- JS strict equality (`===`) restricted to the comparisons the source
performs: both operands primitives. Comparisons involving an object or an
array are modelled as `false` (the source only ever compares against the
primitive literals `0` and enum strings, so reference equality of two objects
is never exercised). -/
def jsStrictEq (a b : JSValue) : Bool :=
  match a, b with
  | .str s, .str t => s == t
  | .num m, .num n => m == n
  | .bool a, .bool b => a == b
  | .null, .null => true
  | .undefined, .undefined => true
  | _, _ => false

/-- String conversion of the elements of an array during `Array.prototype.toString`
(used by template literals on arrays): elements are joined with `","` and
`null`/`undefined` elements become the empty string. -/
def jsArrJoin : List JSValue → String
  | [] => ""
  | v :: rest =>
      (match v with
       | .null => ""
       | .undefined => ""
       | .str s => s
       | .num n => toString n
       | .bool b => cond b "true" "false"
       | .obj _ => "[object Object]"
       | .arr ys => jsArrJoin ys) ++
      (match rest with | [] => "" | _ => ",") ++ jsArrJoin rest

/-- JS `ToString` as invoked by a template literal placeholder. -/
def jsTemplateStr : JSValue → String
  | .null => "null"
  | .undefined => "undefined"
  | .str s => s
  | .num n => toString n
  | .bool b => cond b "true" "false"
  | .obj _ => "[object Object]"
  | .arr xs => jsArrJoin xs

/-! ## Event model (src/app/src/domain/model/Event.ts)

The TS `EventType` enum is string-valued; at runtime events carry plain
strings, so the dispatcher map is keyed by `String` and the enum is embedded
together with its string values. -/

/-- The `EventType` enum of the source. -/
inductive EventType where
  | CRYPTO_UPDATE_EUR : EventType
  | CRYPTO_UPDATE_USD : EventType
  | USER_NOTIFICATION : EventType
  deriving DecidableEq, Repr

/-- The string value of each enum member (TS string enum). -/
def EventType.str : EventType → String
  | .CRYPTO_UPDATE_EUR => "CRYPTO_UPDATE_EUR"
  | .CRYPTO_UPDATE_USD => "CRYPTO_UPDATE_USD"
  | .USER_NOTIFICATION => "USER_NOTIFICATION"

/-- `Object.values(EventType)`, in declaration order. -/
def validTypes : List String :=
  [EventType.CRYPTO_UPDATE_EUR.str, EventType.CRYPTO_UPDATE_USD.str,
   EventType.USER_NOTIFICATION.str]

/-- The `Event` envelope `{ eventType, payload }`; at runtime `eventType` is a
string and `payload` is arbitrary (`any`). -/
structure Event where
  eventType : String
  payload : JSValue
  deriving Repr

/-! ## Dispatcher (src/unnamed/part_002, `DomainEventDispatcher`)

The handler registry is a JS `Map` keyed by event-type string. The source
never iterates the map (only `has`/`get`/`set`), so the map is embedded
extensionally as a function `String → Option (List EventHandler)`. A
registered handler is represented by its identity (`id`, its position among
the concrete handlers) and its declared `eventTypes`; invoking
`handler.handle(event)` is recorded in the dispatch trace as the pair
`(handler.id, event)`. -/

/-- A registered event handler: identity plus declared event types. -/
structure EventHandler where
  id : Nat
  eventTypes : List String
  deriving DecidableEq, Repr

/-- The dispatcher's `Map<EventType, EventHandler[]>`, extensionally. -/
def HandlerMap : Type := String → Option (List EventHandler)

/-- `Map.set` (the source never observes insertion order). -/
def mapSet (m : HandlerMap) (k : String) (v : List EventHandler) : HandlerMap :=
  fun j => if j = k then some v else m j

/-- One iteration of the constructor's inner loop:
`if (!handlers.has(et)) handlers.set(et, []); handlers.get(et)!.push(h)`. -/
def pushHandler (h : EventHandler) (m : HandlerMap) (et : String) : HandlerMap :=
  let m1 := if (m et).isSome then m else mapSet m et []
  mapSet m1 et ((m1 et).getD [] ++ [h])

/-- The dispatcher state after its constructor ran. -/
structure DomainEventDispatcher where
  handlers : HandlerMap

/-- The `DomainEventDispatcher` constructor: for each handler (in argument
order), for each of its declared event types (in declaration order), append
the handler to that type's list. -/
def DomainEventDispatcher.create (handlers : List EventHandler) : DomainEventDispatcher :=
  ⟨handlers.foldl (fun m h => h.eventTypes.foldl (pushHandler h) m) (fun _ => none)⟩

/-- `dispatch(event)`: look up `event.eventType`; if a non-empty handler list
is found, invoke each handler in list order with the same event (returned as
the trace of `handle` calls); otherwise throw
`No handler found for event type: ...`. -/
def DomainEventDispatcher.dispatch (d : DomainEventDispatcher) (e : Event) :
    Except String (List (Nat × Event)) :=
  match d.handlers e.eventType with
  | some hs =>
      if hs.length > 0 then .ok (hs.map (fun h => (h.id, e)))
      else .error ("No handler found for event type: " ++ e.eventType)
  | none => .error ("No handler found for event type: " ++ e.eventType)

/-- Specification view of registration: the handlers registered for kind `k`,
in registration order; a handler occurs once per occurrence of `k` among its
declared event types. -/
def registeredFor : List EventHandler → String → List EventHandler
  | [], _ => []
  | h :: rest, k => List.replicate (h.eventTypes.count k) h ++ registeredFor rest k

theorem pushHandler_apply (h : EventHandler) (m : HandlerMap) (et k : String) :
    pushHandler h m et k = if k = et then some ((m et).getD [] ++ [h]) else m k := by
  unfold pushHandler mapSet
  by_cases hs : (m et).isSome
  · simp [hs]
  · have hnone : m et = none := Option.not_isSome_iff_eq_none.mp hs
    by_cases hk : k = et <;> simp [hs, hk, hnone]

theorem foldl_pushHandler_apply (h : EventHandler) (ets : List String) (m : HandlerMap)
    (k : String) :
    (ets.foldl (pushHandler h) m) k =
      if k ∈ ets then some ((m k).getD [] ++ List.replicate (ets.count k) h) else m k := by
  induction ets generalizing m with
  | nil => simp
  | cons et rest ih =>
    rw [List.foldl_cons, ih (pushHandler h m et)]
    by_cases hk : k = et
    · subst hk
      by_cases hmem : k ∈ rest
      · rw [if_pos hmem, if_pos (List.mem_cons_self k rest)]
        rw [pushHandler_apply, if_pos rfl, Option.getD_some, List.count_cons_self,
          List.replicate_succ]
        simp
      · rw [if_neg hmem, if_pos (List.mem_cons_self k rest)]
        rw [pushHandler_apply, if_pos rfl, List.count_cons_self,
          List.count_eq_zero_of_not_mem hmem, List.replicate_succ, List.replicate_zero]
    · rw [pushHandler_apply, if_neg hk]
      have hcnt : (et :: rest).count k = rest.count k := by
        have hne : ¬et = k := fun hx => hk hx.symm
        rw [List.count_cons]
        simp [hne]
      have hmem2 : (k ∈ et :: rest) ↔ (k ∈ rest) := by
        simp [List.mem_cons, hk]
      rw [hcnt]
      by_cases hr : k ∈ rest
      · rw [if_pos hr, if_pos (hmem2.mpr hr)]
      · rw [if_neg hr, if_neg (fun hx => hr (hmem2.mp hx))]

theorem registerAll_apply (hs : List EventHandler) (m : HandlerMap) (k : String) :
    (hs.foldl (fun m h => h.eventTypes.foldl (pushHandler h) m) m) k =
      if hs.any (fun h => h.eventTypes.contains k) || (m k).isSome
      then some ((m k).getD [] ++ registeredFor hs k) else m k := by
  induction hs generalizing m with
  | nil =>
    simp only [List.any_nil, Bool.false_or, List.foldl_nil, registeredFor, List.append_nil]
    by_cases hsome : (m k).isSome
    · rw [if_pos hsome]
      cases hmk : m k with
      | none => rw [hmk] at hsome; simp at hsome
      | some v => simp
    · rw [if_neg hsome]
  | cons h rest ih =>
    rw [List.foldl_cons, ih]
    have happ := foldl_pushHandler_apply h h.eventTypes m k
    by_cases hmem : k ∈ h.eventTypes
    · have hcontains : h.eventTypes.contains k = true := by simpa using hmem
      rw [happ, if_pos hmem]
      simp only [List.any_cons, hcontains, Bool.true_or, Option.isSome_some, Bool.or_true,
        if_true, Option.getD_some, registeredFor]
      rw [List.append_assoc]
    · have hcontains : h.eventTypes.contains k = false := by simpa using hmem
      have hcnt : h.eventTypes.count k = 0 := List.count_eq_zero_of_not_mem hmem
      rw [happ, if_neg hmem]
      simp only [List.any_cons, hcontains, Bool.false_or, registeredFor, hcnt,
        List.replicate_zero, List.nil_append]

/-- The handler map built by the constructor, pointwise: kind `k` maps to the
ordered registration list exactly when some handler declares `k`. -/
theorem create_handlers_apply (hs : List EventHandler) (k : String) :
    (DomainEventDispatcher.create hs).handlers k =
      if hs.any (fun h => h.eventTypes.contains k)
      then some (registeredFor hs k) else none := by
  have h := registerAll_apply hs (fun _ => none) k
  simp only [Option.isSome_none, Bool.or_false, Option.getD_none, List.nil_append] at h
  unfold DomainEventDispatcher.create
  exact h

/-- With duplicate-free declared kinds, the registration list for `k` is the
input list filtered to the handlers declaring `k` (registration order). -/
theorem registeredFor_eq_filter (hs : List EventHandler) (k : String)
    (hnd : ∀ h ∈ hs, h.eventTypes.Nodup) :
    registeredFor hs k = hs.filter (fun h => h.eventTypes.contains k) := by
  induction hs with
  | nil => simp [registeredFor]
  | cons h rest ih =>
    have hh := hnd h (List.mem_cons_self h rest)
    have hrest : ∀ g ∈ rest, g.eventTypes.Nodup := fun g hg => hnd g (List.mem_cons_of_mem h hg)
    rw [registeredFor, ih hrest, List.filter_cons]
    by_cases hmem : k ∈ h.eventTypes
    · have hcontains : h.eventTypes.contains k = true := by simpa using hmem
      rw [hcontains, if_pos rfl, List.count_eq_one_of_mem hh hmem]
      simp
    · have hcontains : h.eventTypes.contains k = false := by simpa using hmem
      rw [hcontains, List.count_eq_zero_of_not_mem hmem]
      simp

theorem dispatch_eq_of_handlers_some (d : DomainEventDispatcher) (e : Event)
    (hs : List EventHandler) (h : d.handlers e.eventType = some hs) :
    d.dispatch e =
      if hs.length > 0 then .ok (hs.map (fun h => (h.id, e)))
      else .error ("No handler found for event type: " ++ e.eventType) := by
  unfold DomainEventDispatcher.dispatch
  rw [h]

theorem dispatch_eq_of_handlers_none (d : DomainEventDispatcher) (e : Event)
    (h : d.handlers e.eventType = none) :
    d.dispatch e = .error ("No handler found for event type: " ++ e.eventType) := by
  unfold DomainEventDispatcher.dispatch
  rw [h]

/-- C1: for every set of handlers given to the constructor (each declaring its
kinds without duplicates) and every event whose kind at least one handler
declares, `dispatch` invokes exactly the handlers declaring that kind, each
exactly once, in registration order (the order the handlers were passed in),
passing each the same event; handlers declaring only other kinds are not
invoked. The trace lists the `handle` calls in execution order. -/
theorem dispatch_invokes_registered_handlers_in_order
    (hs : List EventHandler) (e : Event)
    (hnd : ∀ h ∈ hs, h.eventTypes.Nodup)
    (hex : ∃ h ∈ hs, e.eventType ∈ h.eventTypes) :
    (DomainEventDispatcher.create hs).dispatch e =
      .ok ((hs.filter (fun h => h.eventTypes.contains e.eventType)).map
        (fun h => (h.id, e))) := by
  obtain ⟨h0, hh0, hmem0⟩ := hex
  have hany : hs.any (fun h => h.eventTypes.contains e.eventType) = true :=
    List.any_eq_true.mpr ⟨h0, hh0, by simpa using hmem0⟩
  have hmap : (DomainEventDispatcher.create hs).handlers e.eventType =
      some (hs.filter (fun h => h.eventTypes.contains e.eventType)) := by
    rw [create_handlers_apply, if_pos hany, registeredFor_eq_filter hs _ hnd]
  rw [dispatch_eq_of_handlers_some _ _ _ hmap]
  have hin : h0 ∈ hs.filter (fun h => h.eventTypes.contains e.eventType) :=
    List.mem_filter.mpr ⟨hh0, by simpa using hmem0⟩
  rw [if_pos (List.length_pos_of_mem hin)]

/-- Witness for C1: with the two concrete handlers of the service registered,
dispatching a EUR crypto-update event invokes exactly the crypto-update
handler (id 0), once, with that event. -/
theorem dispatch_invokes_registered_handlers_in_order_witness :
    (DomainEventDispatcher.create
        [⟨0, ["CRYPTO_UPDATE_EUR", "CRYPTO_UPDATE_USD"]⟩,
         ⟨1, ["USER_NOTIFICATION"]⟩]).dispatch
        ⟨"CRYPTO_UPDATE_EUR", JSValue.null⟩ =
      .ok [(0, ⟨"CRYPTO_UPDATE_EUR", JSValue.null⟩)] := by
  have h := dispatch_invokes_registered_handlers_in_order
      [⟨0, ["CRYPTO_UPDATE_EUR", "CRYPTO_UPDATE_USD"]⟩, ⟨1, ["USER_NOTIFICATION"]⟩]
      ⟨"CRYPTO_UPDATE_EUR", JSValue.null⟩ (by decide) (by decide)
  rw [h]
  rfl

/-- C5: `dispatch` on an event whose kind has an empty or absent handler list
fails with the `No handler found for event type` error, surfaced to the
caller; no handler is invoked (the error result carries no trace of `handle`
calls). -/
theorem dispatch_fails_without_handlers (d : DomainEventDispatcher) (e : Event)
    (h : (d.handlers e.eventType).getD [] = []) :
    d.dispatch e = .error ("No handler found for event type: " ++ e.eventType) := by
  cases hm : d.handlers e.eventType with
  | none => exact dispatch_eq_of_handlers_none d e hm
  | some hs =>
    rw [hm, Option.getD_some] at h
    rw [dispatch_eq_of_handlers_some d e hs hm, h]
    simp

/-- Witness for C5: a dispatcher registering only the user-notification
handler rejects a EUR crypto-update event with the error message. -/
theorem dispatch_fails_without_handlers_witness :
    (DomainEventDispatcher.create [⟨1, ["USER_NOTIFICATION"]⟩]).dispatch
        ⟨"CRYPTO_UPDATE_EUR", JSValue.null⟩ =
      .error "No handler found for event type: CRYPTO_UPDATE_EUR" := by
  have h := dispatch_fails_without_handlers
      (DomainEventDispatcher.create [⟨1, ["USER_NOTIFICATION"]⟩])
      ⟨"CRYPTO_UPDATE_EUR", JSValue.null⟩ (by rfl)
  exact h

/-! ## Socket.IO adapter (src/unnamed/part_001, `SocketIOAdapter`)

The adapter's observable state is its `initialized` flag and the
`userSocketMap : Record<string, Socket>`. The record is only ever read,
written and deleted at single keys (never iterated), so it is embedded
extensionally as `String → Option String`, mapping a `userId` to the bound
socket's `id` (sockets are identified by their unique `socket.id`). The
external `cookie.parse` library and the `AuthServicePort.validateToken`
collaborator are passed in as function parameters. -/

/-- Outcome of the external `authService.validateToken(token)` call:
a `{ userId }` object, `null`, or a thrown error. -/
inductive TokenValidation where
  | valid : String → TokenValidation
  | invalid : TokenValidation
  | failure : String → TokenValidation
  deriving DecidableEq, Repr

/-- Decision of the auth middleware: `next()` after binding the userId, or
`next(new Error(reason))`. -/
inductive AdmissionDecision where
  | admitted : String → AdmissionDecision
  | rejected : String → AdmissionDecision
  deriving DecidableEq, Repr

/-- Lookup `cookies[name]` on the parsed cookie record. -/
def cookieLookup (cookies : List (String × String)) (name : String) : Option String :=
  match cookies.find? (fun q => q.1 == name) with
  | some q => some q.2
  | none => none

/-- The auth middleware on the `/user-updates` server: reject when the cookie
header is falsy (absent or empty), reject when the parsed `authToken` cookie
is falsy, otherwise validate the token: a truthy result admits and carries
the `userId`, a `null` result rejects with `Unauthorized`, and a thrown
error is caught and also rejects with `Unauthorized`. `parse` models the
external `cookie.parse`, `validateToken` the external auth service. -/
def authMiddleware (parse : String → List (String × String))
    (validateToken : String → TokenValidation)
    (cookieHeader : Option String) : AdmissionDecision :=
  match cookieHeader with
  | none => .rejected "No cookies provided"
  | some hdr =>
      if hdr = "" then .rejected "No cookies provided"
      else
        match cookieLookup (parse hdr) "authToken" with
        | none => .rejected "No authToken provided in cookies"
        | some tok =>
            if tok = "" then .rejected "No authToken provided in cookies"
            else
              match validateToken tok with
              | .valid uid => .admitted uid
              | .invalid => .rejected "Unauthorized"
              | .failure _ => .rejected "Unauthorized"

/-- Adapter state: the one-time-setup flag and the user-socket map. -/
structure SocketIOAdapter where
  initialized : Bool
  userSocketMap : String → Option String

/-- The authenticated-connection handler: `userSocketMap[userId] = socket`. -/
def handleAuthConnection (a : SocketIOAdapter) (userId socketId : String) :
    SocketIOAdapter :=
  { a with userSocketMap := fun u => if u = userId then some socketId else a.userSocketMap u }

/-- The disconnect handler of an authenticated connection: delete the map
entry only if the map still holds this exact socket
(`mappedSocket && mappedSocket.id === socket.id`). -/
def handleAuthDisconnect (a : SocketIOAdapter) (userId socketId : String) :
    SocketIOAdapter :=
  match a.userSocketMap userId with
  | some mappedId =>
      if mappedId = socketId then
        { a with userSocketMap := fun u => if u = userId then none else a.userSocketMap u }
      else a
  | none => a

/-- A message emitted on a specific socket: socket id, event name, payload. -/
structure SocketEmit where
  socketId : String
  eventName : String
  message : JSValue
  deriving Repr

/-- `sendToUser(userId, messageJson)`: throw if the adapter is not
initialized; otherwise emit `user-specific-event` on the bound socket when a
binding exists, and do nothing when it does not. -/
def sendToUser (a : SocketIOAdapter) (userId : String) (messageJson : JSValue) :
    Except String (List SocketEmit) :=
  if a.initialized = false then .error "SocketIOAdapter not initialized"
  else
    match a.userSocketMap userId with
    | some sid => .ok [⟨sid, "user-specific-event", messageJson⟩]
    | none => .ok []

/-- C2: the identity-binding table maps each userId to at most one live
connection. Authenticating on a new connection replaces any prior mapping
(last-connect-wins); a disconnect removes the mapping exactly when the table
still points at that same socket; and a disconnect of a connection already
superseded by a newer one for the same userId leaves the newer binding in
place. -/
theorem identityBinding_lastConnectWins_guardedDelete
    (a : SocketIOAdapter) (u s1 s2 : String) :
    ((handleAuthConnection a u s2).userSocketMap u = some s2) ∧
    ((handleAuthDisconnect a u s1).userSocketMap u =
      if a.userSocketMap u = some s1 then none else a.userSocketMap u) ∧
    (s1 ≠ s2 →
      (handleAuthDisconnect (handleAuthConnection a u s2) u s1).userSocketMap u = some s2) := by
  refine ⟨by simp [handleAuthConnection], ?_, ?_⟩
  · cases hm : a.userSocketMap u with
    | none => simp [handleAuthDisconnect, hm]
    | some mid =>
      by_cases hms : mid = s1
      · subst hms
        simp [handleAuthDisconnect, hm]
      · have hne : ¬(some mid = some s1) := by
          intro hx
          exact hms (Option.some.injEq mid s1 ▸ congrArg (Option.getD · "") hx)
        simp [handleAuthDisconnect, hm, hms, hne]
  · intro hne
    have hcon : (handleAuthConnection a u s2).userSocketMap u = some s2 := by
      simp [handleAuthConnection]
    have hs21 : ¬s2 = s1 := fun hx => hne hx.symm
    simp only [handleAuthDisconnect, hcon, if_neg hs21]

/-- Witness for C2: starting from an empty table, user `u1` connects on
socket `sock2`; a late disconnect event for the superseded socket `sock1`
does not evict the newer binding. -/
theorem identityBinding_lastConnectWins_guardedDelete_witness :
    (handleAuthDisconnect
        (handleAuthConnection ⟨true, fun _ => none⟩ "u1" "sock2") "u1" "sock1").userSocketMap
      "u1" = some "sock2" :=
  (identityBinding_lastConnectWins_guardedDelete ⟨true, fun _ => none⟩ "u1" "sock1" "sock2").2.2
    (by decide)

/-- C3: for every authenticated-channel connection attempt, absence of the
cookie header (or an empty header) and absence of the `authToken` cookie (or
an empty one) fail admission with the missing-credential rejections; a `null`
result of `validateToken` and a thrown validation error both fail admission
with `Unauthorized` (fail closed); admission succeeds exactly when
`validateToken` returns a `{ userId }`, and the admitted connection is then
bound to that userId in the identity-binding table by the connection
handler. -/
theorem authMiddleware_admission (parse : String → List (String × String))
    (validateToken : String → TokenValidation) :
    (authMiddleware parse validateToken none = .rejected "No cookies provided") ∧
    (authMiddleware parse validateToken (some "") = .rejected "No cookies provided") ∧
    (∀ hdr, hdr ≠ "" → cookieLookup (parse hdr) "authToken" = none →
      authMiddleware parse validateToken (some hdr) =
        .rejected "No authToken provided in cookies") ∧
    (∀ hdr, hdr ≠ "" → cookieLookup (parse hdr) "authToken" = some "" →
      authMiddleware parse validateToken (some hdr) =
        .rejected "No authToken provided in cookies") ∧
    (∀ hdr tok, hdr ≠ "" → cookieLookup (parse hdr) "authToken" = some tok → tok ≠ "" →
      validateToken tok = .invalid →
      authMiddleware parse validateToken (some hdr) = .rejected "Unauthorized") ∧
    (∀ hdr tok err, hdr ≠ "" → cookieLookup (parse hdr) "authToken" = some tok → tok ≠ "" →
      validateToken tok = .failure err →
      authMiddleware parse validateToken (some hdr) = .rejected "Unauthorized") ∧
    (∀ hdr tok uid, hdr ≠ "" → cookieLookup (parse hdr) "authToken" = some tok → tok ≠ "" →
      validateToken tok = .valid uid →
      authMiddleware parse validateToken (some hdr) = .admitted uid) ∧
    (∀ ch uid, authMiddleware parse validateToken ch = .admitted uid →
      ∃ hdr tok, ch = some hdr ∧ cookieLookup (parse hdr) "authToken" = some tok ∧
        validateToken tok = .valid uid) ∧
    (∀ a uid sid, (handleAuthConnection a uid sid).userSocketMap uid = some sid) := by
  refine ⟨rfl, rfl, ?_, ?_, ?_, ?_, ?_, ?_, ?_⟩
  · intro hdr h1 h2
    simp [authMiddleware, h1, h2]
  · intro hdr h1 h2
    simp [authMiddleware, h1, h2]
  · intro hdr tok h1 h2 h3 h4
    simp [authMiddleware, h1, h2, h3, h4]
  · intro hdr tok err h1 h2 h3 h4
    simp [authMiddleware, h1, h2, h3, h4]
  · intro hdr tok uid h1 h2 h3 h4
    simp [authMiddleware, h1, h2, h3, h4]
  · intro ch uid hadm
    match ch with
    | none => exact absurd hadm (by simp [authMiddleware])
    | some hdr =>
      by_cases h1 : hdr = ""
      · subst h1
        exact absurd hadm (by simp [authMiddleware])
      · cases h2 : cookieLookup (parse hdr) "authToken" with
        | none => exact absurd hadm (by simp [authMiddleware, h1, h2])
        | some tok =>
          by_cases h3 : tok = ""
          · subst h3
            exact absurd hadm (by simp [authMiddleware, h1, h2])
          · cases h4 : validateToken tok with
            | valid uid2 =>
              have : AdmissionDecision.admitted uid2 = .admitted uid := by
                rw [← hadm]
                simp [authMiddleware, h1, h2, h3, h4]
              have huid : uid2 = uid := by
                cases this
                rfl
              exact ⟨hdr, tok, rfl, h2, huid ▸ h4⟩
            | invalid => exact absurd hadm (by simp [authMiddleware, h1, h2, h3, h4])
            | failure err => exact absurd hadm (by simp [authMiddleware, h1, h2, h3, h4])
  · intro a uid sid
    simp [handleAuthConnection]

/-- Witness for C3: with a cookie parser yielding `authToken=tok1` and an
auth service accepting exactly `tok1` as user `u1`, the middleware admits the
connection; with a header carrying no `authToken`, it rejects with the
missing-credential reason; and a validation failure rejects with
`Unauthorized`. -/
theorem authMiddleware_admission_witness :
    authMiddleware (fun h => if h = "authToken=tok1" then [("authToken", "tok1")] else [])
        (fun t => if t = "tok1" then .valid "u1" else .invalid)
        (some "authToken=tok1") = .admitted "u1" ∧
    authMiddleware (fun h => if h = "authToken=tok1" then [("authToken", "tok1")] else [])
        (fun t => if t = "tok1" then .valid "u1" else .invalid)
        (some "other=1") = .rejected "No authToken provided in cookies" ∧
    authMiddleware (fun _ => [("authToken", "bad")])
        (fun _ => .failure "timeout") (some "authToken=bad") =
      .rejected "Unauthorized" := by
  refine ⟨?_, ?_, ?_⟩
  · exact (authMiddleware_admission _ _).2.2.2.2.2.2.1 "authToken=tok1" "tok1" "u1"
      (by decide) (by decide) (by decide) (by decide)
  · exact (authMiddleware_admission _ _).2.2.1 "other=1" (by decide) (by decide)
  · exact (authMiddleware_admission _ _).2.2.2.2.2.1 "authToken=bad" "bad" "timeout"
      (by decide) (by decide) (by decide) (by decide)

/-- C6: when the adapter is initialized, `sendToUser(userId, message)` looks
the userId up in the identity-binding table; a present binding receives
exactly one `user-specific-event` emit carrying the message on the bound
socket, and an absent binding makes the call a silent no-op: no error and no
emit. -/
theorem sendToUser_delivers_or_noop (a : SocketIOAdapter) (u : String) (msg : JSValue)
    (hInit : a.initialized = true) :
    (∀ sid, a.userSocketMap u = some sid →
      sendToUser a u msg = .ok [⟨sid, "user-specific-event", msg⟩]) ∧
    (a.userSocketMap u = none → sendToUser a u msg = .ok []) := by
  constructor
  · intro sid hmap
    simp [sendToUser, hInit, hmap]
  · intro hmap
    simp [sendToUser, hInit, hmap]

/-- Witness for C6: on an initialized adapter binding only `u1` to `sock1`,
`sendToUser` emits to `sock1` for `u1` and is a silent no-op for `u2`. -/
theorem sendToUser_delivers_or_noop_witness :
    sendToUser ⟨true, fun u => if u = "u1" then some "sock1" else none⟩ "u1" (.str "hello") =
      .ok [⟨"sock1", "user-specific-event", .str "hello"⟩] ∧
    sendToUser ⟨true, fun u => if u = "u1" then some "sock1" else none⟩ "u2" (.str "hello") =
      .ok [] := by
  constructor
  · exact (sendToUser_delivers_or_noop
      ⟨true, fun u => if u = "u1" then some "sock1" else none⟩ "u1" (.str "hello") rfl).1
      "sock1" (by decide)
  · exact (sendToUser_delivers_or_noop
      ⟨true, fun u => if u = "u1" then some "sock1" else none⟩ "u2" (.str "hello") rfl).2
      (by decide)

/-! ## Event service (src/unnamed/part_003, `EventService`)

`EventService` registers the two concrete handlers with a
`DomainEventDispatcher` (crypto-update handler first, then the
user-notification handler) and validates inbound events before dispatching.
Validation reads JS properties of the raw inbound value, so it operates on a
`JSValue` and can raise native `TypeError`s. -/

/-- Declared event types of `CryptoUpdateHandler`. -/
def CryptoUpdateHandler.eventTypes : List String :=
  [EventType.CRYPTO_UPDATE_EUR.str, EventType.CRYPTO_UPDATE_USD.str]

/-- Declared event types of `UserNotificationHandler`. -/
def UserNotificationHandler.eventTypes : List String :=
  [EventType.USER_NOTIFICATION.str]

/-- The handlers the `EventService` constructor registers, in order; ids are
their registration positions (0 = crypto-update, 1 = user-notification). -/
def EventService.handlers : List EventHandler :=
  [⟨0, CryptoUpdateHandler.eventTypes⟩, ⟨1, UserNotificationHandler.eventTypes⟩]

/-- The dispatcher the `EventService` constructor builds. -/
def EventService.dispatcher : DomainEventDispatcher :=
  DomainEventDispatcher.create EventService.handlers

/-- `isValidEventData`: falsy event → invalid; `eventType` outside
`Object.values(EventType)` → invalid; `payload.length === 0` → invalid
(reading `length` of a nullish payload throws); otherwise valid. Thrown
native errors propagate as `Except.error`. -/
def EventService.isValidEventData (eventJson : JSValue) : Except String Bool :=
  if jsTruthy eventJson = false then .ok false
  else
    match jsGet eventJson "eventType" with
    | .error m => .error m
    | .ok et =>
        if (validTypes.any (fun t => jsStrictEq et (.str t))) = false then .ok false
        else
          match jsGet eventJson "payload" with
          | .error m => .error m
          | .ok payload =>
              match jsGet payload "length" with
              | .error m => .error m
              | .ok len =>
                  if jsStrictEq len (.num 0) = true then .ok false
                  else .ok true

/-- A failure escaping `processEvent`: a native `TypeError` raised during
validation, or a thrown `Error` (the `Invalid event data` rejection or a
dispatch error). -/
inductive ProcError where
  | typeError : String → ProcError
  | thrown : String → ProcError
  deriving DecidableEq, Repr

/-- `processEvent(eventJson)`: throw `Invalid event data` when validation
returns false, propagate a native validation error, and otherwise dispatch
the event through the service's dispatcher, returning the trace of handler
invocations. (In the dispatch branch validation has already ensured the
event is a non-nullish object whose `eventType` is one of the enum strings,
so reading the two properties into the typed `Event` view cannot throw.) -/
def EventService.processEvent (eventJson : JSValue) :
    Except ProcError (List (Nat × Event)) :=
  match EventService.isValidEventData eventJson with
  | .error m => .error (.typeError m)
  | .ok false => .error (.thrown "Invalid event data")
  | .ok true =>
      let et := match jsGetD eventJson "eventType" with | .str s => s | _ => ""
      let p := jsGetD eventJson "payload"
      match EventService.dispatcher.dispatch ⟨et, p⟩ with
      | .ok tr => .ok tr
      | .error m => .error (.thrown m)

/-- An inbound event envelope `{ eventType, payload }` as a JS object. -/
def mkEvent (k : String) (p : JSValue) : JSValue :=
  .obj [("eventType", .str k), ("payload", p)]

theorem jsGet_eq_ok (v : JSValue) (k : String) (h : jsNullish v = false) :
    jsGet v k = .ok (jsGetD v k) := by
  cases v with
  | null => simp [jsNullish] at h
  | undefined => simp [jsNullish] at h
  | str s => rfl
  | num n => rfl
  | bool b => rfl
  | arr xs => rfl
  | obj fs => rfl

theorem isValidEventData_known_kind (k : String) (p : JSValue) (hk : k ∈ validTypes) :
    EventService.isValidEventData (mkEvent k p) =
      match jsGet p "length" with
      | .error m => .error m
      | .ok len => if jsStrictEq len (.num 0) = true then .ok false else .ok true := by
  have hany : (validTypes.any (fun t => jsStrictEq (.str k) (.str t))) = true :=
    List.any_eq_true.mpr ⟨k, hk, by simp [jsStrictEq]⟩
  show (if (validTypes.any (fun t => jsStrictEq (.str k) (.str t))) = false
        then (Except.ok false : Except String Bool)
        else
          match jsGet p "length" with
          | .error m => .error m
          | .ok len => if jsStrictEq len (.num 0) = true then .ok false else .ok true) = _
  rw [hany]
  simp

theorem isValidEventData_unknown_kind (k : String) (p : JSValue) (hk : k ∉ validTypes) :
    EventService.isValidEventData (mkEvent k p) = .ok false := by
  have hany : (validTypes.any (fun t => jsStrictEq (.str k) (.str t))) = false := by
    rw [List.any_eq_false]
    intro t ht
    have hne : k ≠ t := fun hx => hk (hx ▸ ht)
    simp [jsStrictEq, hne]
  show (if (validTypes.any (fun t => jsStrictEq (.str k) (.str t))) = false
        then (Except.ok false : Except String Bool)
        else
          match jsGet p "length" with
          | .error m => .error m
          | .ok len => if jsStrictEq len (.num 0) = true then .ok false else .ok true) = _
  rw [hany]
  rfl

/-- C4: an event whose kind is outside the three-member enum, or whose
payload is an empty array where a sequence is expected, is rejected by
`processEvent` with the `Invalid event data` error; the error result carries
no handler-invocation trace, so dispatch is never invoked on such an
event. -/
theorem processEvent_rejects_invalid_events (k : String) (p : JSValue) :
    (k ∉ validTypes →
      EventService.processEvent (mkEvent k p) = .error (.thrown "Invalid event data")) ∧
    (k ∈ validTypes →
      EventService.processEvent (mkEvent k (.arr [])) =
        .error (.thrown "Invalid event data")) := by
  constructor
  · intro hk
    unfold EventService.processEvent
    rw [isValidEventData_unknown_kind k p hk]
  · intro hk
    unfold EventService.processEvent
    rw [isValidEventData_known_kind k (.arr []) hk]
    rfl

/-- Witness for C4: an unknown kind with a non-empty payload, and a known
kind with an empty array payload, are both rejected with
`Invalid event data`. -/
theorem processEvent_rejects_invalid_events_witness :
    EventService.processEvent (mkEvent "UNKNOWN_KIND" (.arr [.str "x"])) =
      .error (.thrown "Invalid event data") ∧
    EventService.processEvent (mkEvent "CRYPTO_UPDATE_EUR" (.arr [])) =
      .error (.thrown "Invalid event data") :=
  ⟨(processEvent_rejects_invalid_events "UNKNOWN_KIND" (.arr [.str "x"])).1 (by decide),
   (processEvent_rejects_invalid_events "CRYPTO_UPDATE_EUR" .null).2 (by decide)⟩

/-- C10: validation reads `payload.length` unguarded. For a known kind with
an absent (`null`/`undefined`) payload, `processEvent` fails with a native
`TypeError`, not the `Invalid event data` rejection; and for a known kind
whose payload has no numeric length strictly equal to `0` (for example the
object-shaped user-notification payload), the emptiness check accepts the
event and it proceeds to dispatch, invoking the registered handlers. -/
theorem validation_reads_length_unguarded (k : String) (p : JSValue) :
    (k ∈ validTypes →
      EventService.processEvent (mkEvent k .null) =
        .error (.typeError "TypeError: Cannot read properties of null (reading length)") ∧
      EventService.processEvent (mkEvent k .undefined) =
        .error
          (.typeError "TypeError: Cannot read properties of undefined (reading length)")) ∧
    (k ∈ validTypes → jsNullish p = false →
      jsStrictEq (jsGetD p "length") (.num 0) = false →
      EventService.processEvent (mkEvent k p) =
        .ok ((registeredFor EventService.handlers k).map
          (fun h => (h.id, (⟨k, p⟩ : Event)))) ∧
      registeredFor EventService.handlers k ≠ []) := by
  constructor
  · intro hk
    constructor
    · unfold EventService.processEvent
      rw [isValidEventData_known_kind k .null hk]
      rfl
    · unfold EventService.processEvent
      rw [isValidEventData_known_kind k .undefined hk]
      rfl
  · intro hk hnull hlen
    have hvalid : EventService.isValidEventData (mkEvent k p) = .ok true := by
      rw [isValidEventData_known_kind k p hk, jsGet_eq_ok p "length" hnull]
      show (if jsStrictEq (jsGetD p "length") (JSValue.num 0) = true
            then (Except.ok false : Except String Bool) else .ok true) = .ok true
      rw [hlen]
      rfl
    have hk3 : k = "CRYPTO_UPDATE_EUR" ∨ k = "CRYPTO_UPDATE_USD" ∨
        k = "USER_NOTIFICATION" := by
      simpa [validTypes, EventType.str] using hk
    rcases hk3 with rfl | rfl | rfl <;>
      refine ⟨?_, by decide⟩ <;>
      · unfold EventService.processEvent
        rw [hvalid]
        rfl

/-- Witness for C10: a user-notification event with `null` payload raises a
native `TypeError`; the object-shaped user-notification payload (which has
no `length`) is accepted and dispatched to the user-notification handler. -/
theorem validation_reads_length_unguarded_witness :
    EventService.processEvent (mkEvent "USER_NOTIFICATION" .null) =
      .error (.typeError "TypeError: Cannot read properties of null (reading length)") ∧
    EventService.processEvent
        (mkEvent "USER_NOTIFICATION" (.obj [("userId", .str "u1"), ("message", .str "hi")])) =
      .ok [(1, ⟨"USER_NOTIFICATION",
        .obj [("userId", .str "u1"), ("message", .str "hi")]⟩)] := by
  constructor
  · exact ((validation_reads_length_unguarded "USER_NOTIFICATION" .null).1 (by decide)).1
  · have h := ((validation_reads_length_unguarded "USER_NOTIFICATION"
        (.obj [("userId", .str "u1"), ("message", .str "hi")])).2
        (by decide) (by decide) (by decide)).1
    rw [h]
    rfl

/-! ## Domain handlers (src/app/src/application/handlers/CryptoUpdateHandler.ts)

Handler side effects on the Delivery Port and the Notification Relay Port
are recorded as an explicit effect list in execution order. -/

/-- Shape of one relayed price record (`CryptoPriceData`): `{id, symbol, price}`.
The field values are whatever the inbound records carried. -/
structure CryptoPriceData where
  id : JSValue
  symbol : JSValue
  price : JSValue
  deriving Repr

/-- The broadcast-view message `ViewUpdateMessage`. Modelled from the spec:
the DTO module `ViewUpdateMessage.ts` is not part of the sources at hand;
the spec defines the broadcast-view message as
`{timestamp: now, payload: event.payload}` (pass-through of the price-record
sequence, annotated with a generation timestamp). -/
structure ViewUpdateMessage where
  timestamp : String
  payload : JSValue
  deriving Repr

/-- Modelled from the spec: `createViewUpdateMessage` builds
`{timestamp, payload}` with the payload passed through verbatim. -/
def createViewUpdateMessage (timestamp : String) (payload : JSValue) : ViewUpdateMessage :=
  ⟨timestamp, payload⟩

/-- The notification-relay message `NotificationUpdateMessage`:
`{timestamp, payload: CryptoPriceData[]}`. -/
structure NotificationUpdateMessage where
  timestamp : String
  payload : List CryptoPriceData
  deriving Repr

/-- Projection of one inbound record to `{id, symbol, price}` (the arrow
function inside `createNotificationUpdateMessage`). -/
def projectRecord (c : JSValue) : CryptoPriceData :=
  ⟨jsGetD c "id", jsGetD c "symbol", jsGetD c "price"⟩

/-- `createNotificationUpdateMessage(timestamp, eventInbound)`: map the
payload records to their `{id, symbol, price}` projection. Calling `.map` on
a non-array payload, or reading the fields of a nullish record, throws. -/
def createNotificationUpdateMessage (timestamp : String) (eventInbound : Event) :
    Except String NotificationUpdateMessage :=
  match eventInbound.payload with
  | .arr xs =>
      (xs.mapM (fun c => do
        let i ← jsGet c "id"
        let s ← jsGet c "symbol"
        let pr ← jsGet c "price"
        pure (CryptoPriceData.mk i s pr))).map
        (fun cryptoPriceData => ⟨timestamp, cryptoPriceData⟩)
  | _ => .error "TypeError: eventInbound.payload.map is not a function"

/-- A side effect performed by a handler, in execution order. -/
inductive Effect where
  | broadcastEUR : ViewUpdateMessage → Effect
  | broadcastUSD : ViewUpdateMessage → Effect
  | sendNotification : String → NotificationUpdateMessage → Effect
  | sendToUser : JSValue → JSValue → Effect
  deriving Repr

/-- `CryptoUpdateHandler.handle`: build the broadcast-view message and the
notification-relay message (the two `new Date().toISOString()` calls are the
parameters `nowView` and `nowNotif`), then route by event type: EUR events
are broadcast on `broadcastEUR` and relayed tagged `eur`, USD events on
`broadcastUSD` tagged `usd`; any other type produces no effect. -/
def CryptoUpdateHandler.handle (nowView nowNotif : String) (eventInbound : Event) :
    Except String (List Effect) := do
  let updateMessage := createViewUpdateMessage nowView eventInbound.payload
  let notificationUpdateMessage ← createNotificationUpdateMessage nowNotif eventInbound
  if eventInbound.eventType = EventType.CRYPTO_UPDATE_EUR.str then
    pure [.broadcastEUR updateMessage, .sendNotification "eur" notificationUpdateMessage]
  else if eventInbound.eventType = EventType.CRYPTO_UPDATE_USD.str then
    pure [.broadcastUSD updateMessage, .sendNotification "usd" notificationUpdateMessage]
  else
    pure []

theorem createNotificationUpdateMessage_projects (timestamp : String) (e : Event)
    (ys : List JSValue) (hp : e.payload = .arr ys)
    (hel : ∀ y ∈ ys, jsNullish y = false) :
    createNotificationUpdateMessage timestamp e = .ok ⟨timestamp, ys.map projectRecord⟩ := by
  unfold createNotificationUpdateMessage
  rw [hp]
  have hmap : ∀ (zs : List JSValue), (∀ y ∈ zs, jsNullish y = false) →
      zs.mapM (fun c => do
        let i ← jsGet c "id"
        let s ← jsGet c "symbol"
        let pr ← jsGet c "price"
        pure (CryptoPriceData.mk i s pr)) =
        (.ok (zs.map projectRecord) : Except String (List CryptoPriceData)) := by
    intro zs hzs
    induction zs with
    | nil => rfl
    | cons z rest ih =>
      have hz : jsNullish z = false := hzs z (List.mem_cons_self z rest)
      have hrest := ih (fun y hy => hzs y (List.mem_cons_of_mem z hy))
      rw [List.mapM_cons, jsGet_eq_ok z "id" hz, jsGet_eq_ok z "symbol" hz,
        jsGet_eq_ok z "price" hz]
      simp only [bind, Except.bind, pure, Except.pure] at hrest ⊢
      rw [hrest]
      rfl
  show Except.map
      (fun cryptoPriceData => (⟨timestamp, cryptoPriceData⟩ : NotificationUpdateMessage))
      (ys.mapM (fun c => do
        let i ← jsGet c "id"
        let s ← jsGet c "symbol"
        let pr ← jsGet c "price"
        pure (CryptoPriceData.mk i s pr))) = _
  rw [hmap ys hel]
  rfl

/-- C7: a crypto-update event's payload is broadcast verbatim on exactly the
sub-channel matching its kind (EUR events only on `broadcastEUR`, USD events
only on `broadcastUSD`), and the notification relay receives, tagged with
that currency, the same records projected to `{id, symbol, price}`. -/
theorem cryptoUpdateHandler_routes_by_currency (nowView nowNotif : String)
    (ys : List JSValue) (hel : ∀ y ∈ ys, jsNullish y = false) :
    (CryptoUpdateHandler.handle nowView nowNotif ⟨"CRYPTO_UPDATE_EUR", .arr ys⟩ =
      .ok [.broadcastEUR ⟨nowView, .arr ys⟩,
           .sendNotification "eur" ⟨nowNotif, ys.map projectRecord⟩]) ∧
    (CryptoUpdateHandler.handle nowView nowNotif ⟨"CRYPTO_UPDATE_USD", .arr ys⟩ =
      .ok [.broadcastUSD ⟨nowView, .arr ys⟩,
           .sendNotification "usd" ⟨nowNotif, ys.map projectRecord⟩]) := by
  have h1 := createNotificationUpdateMessage_projects nowNotif
    ⟨"CRYPTO_UPDATE_EUR", .arr ys⟩ ys rfl hel
  have h2 := createNotificationUpdateMessage_projects nowNotif
    ⟨"CRYPTO_UPDATE_USD", .arr ys⟩ ys rfl hel
  constructor
  · unfold CryptoUpdateHandler.handle
    rw [h1]
    rfl
  · unfold CryptoUpdateHandler.handle
    rw [h2]
    rfl

/-- Witness for C7: the EUR event with two records (one carrying an extra
`marketCap` field) broadcasts the records verbatim on the EUR sub-channel
and relays the `{id, symbol, price}` projection tagged `eur`. -/
theorem cryptoUpdateHandler_routes_by_currency_witness :
    CryptoUpdateHandler.handle "t1" "t2" ⟨"CRYPTO_UPDATE_EUR",
        .arr [.obj [("id", .str "bitcoin"), ("symbol", .str "btc"),
                    ("price", .num 102809), ("marketCap", .num 2000000)],
              .obj [("id", .str "ethereum"), ("symbol", .str "eth"),
                    ("price", .num 3187)]]⟩ =
      .ok [.broadcastEUR ⟨"t1",
              .arr [.obj [("id", .str "bitcoin"), ("symbol", .str "btc"),
                          ("price", .num 102809), ("marketCap", .num 2000000)],
                    .obj [("id", .str "ethereum"), ("symbol", .str "eth"),
                          ("price", .num 3187)]]⟩,
           .sendNotification "eur" ⟨"t2",
              [⟨.str "bitcoin", .str "btc", .num 102809⟩,
               ⟨.str "ethereum", .str "eth", .num 3187⟩]⟩] := by
  have h := (cryptoUpdateHandler_routes_by_currency "t1" "t2"
      [.obj [("id", .str "bitcoin"), ("symbol", .str "btc"),
             ("price", .num 102809), ("marketCap", .num 2000000)],
       .obj [("id", .str "ethereum"), ("symbol", .str "eth"),
             ("price", .num 3187)]] (by decide)).1
  rw [h]
  rfl

/-! ## User-notification handler
(src/app/src/application/handlers/CryptoUpdateHandler.ts, second segment) -/

/-- `UserNotificationHandler.handle`: destructure the payload; when `message`
is truthy deliver it as-is, otherwise synthesize the alert text (verb chosen
by `alertType === "ABOVE"`); send the result to the user via
`sendToUser(userId, { message })`. The only effect is the targeted send — no
broadcast. -/
def UserNotificationHandler.handle (event : Event) : Except String (List Effect) := do
  let userId ← jsGet event.payload "userId"
  let cryptoId ← jsGet event.payload "cryptoId"
  let alertPrice ← jsGet event.payload "alertPrice"
  let currentPrice ← jsGet event.payload "currentPrice"
  let alertType ← jsGet event.payload "alertType"
  let message ← jsGet event.payload "message"
  let notificationMessage : JSValue :=
    if jsTruthy message then message
    else .str (jsTemplateStr cryptoId ++ " price " ++
      (if jsStrictEq alertType (.str "ABOVE") then "surpassed" else "dropped below") ++
      " your target of $" ++ jsTemplateStr alertPrice ++ ". Current price is $" ++
      jsTemplateStr currentPrice ++ ".")
  pure [.sendToUser userId (.obj [("message", notificationMessage)])]

/-- Counterexample to C8 as stated: a payload whose `message` field is
present but empty. The claim requires the present string to be delivered
unchanged, but the code tests truthiness (`if (message)`), so the empty
string is replaced by the synthesized alert text. -/
theorem userNotificationHandler_emptyMessage_counterexample :
    UserNotificationHandler.handle ⟨"USER_NOTIFICATION",
        .obj [("userId", .str "user123"), ("cryptoId", .str "bitcoin"),
              ("alertPrice", .str "40000"), ("currentPrice", .str "41000"),
              ("alertType", .str "ABOVE"), ("message", .str "")]⟩ =
      .ok [.sendToUser (.str "user123") (.obj [("message",
        .str "bitcoin price surpassed your target of $40000. Current price is $41000.")])] ∧
    "bitcoin price surpassed your target of $40000. Current price is $41000." ≠ "" :=
  ⟨rfl, by decide⟩

/-- C8 (amended): if the payload's `message` field is truthy (present and
non-empty), that exact value is delivered unchanged; otherwise (absent or
falsy, e.g. the empty string) the delivered message is
`<cryptoId> price <surpassed|dropped below> your target of $<alertPrice>.
Current price is $<currentPrice>.` with the verb `surpassed` iff
`alertType === "ABOVE"`; the result is delivered via
`sendToUser(userId, {message})` and the handler performs no broadcast. -/
theorem userNotificationHandler_message_rule (pv : JSValue) (hp : jsNullish pv = false) :
    (jsTruthy (jsGetD pv "message") = true →
      UserNotificationHandler.handle ⟨"USER_NOTIFICATION", pv⟩ =
        .ok [.sendToUser (jsGetD pv "userId")
          (.obj [("message", jsGetD pv "message")])]) ∧
    (jsTruthy (jsGetD pv "message") = false →
      UserNotificationHandler.handle ⟨"USER_NOTIFICATION", pv⟩ =
        .ok [.sendToUser (jsGetD pv "userId") (.obj [("message",
          .str (jsTemplateStr (jsGetD pv "cryptoId") ++ " price " ++
            (if jsStrictEq (jsGetD pv "alertType") (.str "ABOVE") then "surpassed"
             else "dropped below") ++
            " your target of $" ++ jsTemplateStr (jsGetD pv "alertPrice") ++
            ". Current price is $" ++ jsTemplateStr (jsGetD pv "currentPrice") ++
            "."))])]) := by
  constructor
  · intro hm
    unfold UserNotificationHandler.handle
    rw [jsGet_eq_ok pv "userId" hp, jsGet_eq_ok pv "cryptoId" hp,
      jsGet_eq_ok pv "alertPrice" hp, jsGet_eq_ok pv "currentPrice" hp,
      jsGet_eq_ok pv "alertType" hp, jsGet_eq_ok pv "message" hp]
    simp only [bind, Except.bind, pure, Except.pure]
    rw [hm]
    rfl
  · intro hm
    unfold UserNotificationHandler.handle
    rw [jsGet_eq_ok pv "userId" hp, jsGet_eq_ok pv "cryptoId" hp,
      jsGet_eq_ok pv "alertPrice" hp, jsGet_eq_ok pv "currentPrice" hp,
      jsGet_eq_ok pv "alertType" hp, jsGet_eq_ok pv "message" hp]
    simp only [bind, Except.bind, pure, Except.pure]
    rw [hm]
    rfl

/-- Witness for C8 (amended): the alert payload without `message` produces
the synthesized `surpassed` text sent to `user123`; an explicit non-empty
`message` is delivered verbatim. -/
theorem userNotificationHandler_message_rule_witness :
    UserNotificationHandler.handle ⟨"USER_NOTIFICATION",
        .obj [("userId", .str "user123"), ("cryptoId", .str "bitcoin"),
              ("alertPrice", .str "40000"), ("currentPrice", .str "41000"),
              ("alertType", .str "ABOVE")]⟩ =
      .ok [.sendToUser (.str "user123") (.obj [("message",
        .str "bitcoin price surpassed your target of $40000. Current price is $41000.")])] ∧
    UserNotificationHandler.handle ⟨"USER_NOTIFICATION",
        .obj [("userId", .str "user123"), ("message", .str "custom text")]⟩ =
      .ok [.sendToUser (.str "user123") (.obj [("message", .str "custom text")])] := by
  constructor
  · have h := (userNotificationHandler_message_rule
        (.obj [("userId", .str "user123"), ("cryptoId", .str "bitcoin"),
               ("alertPrice", .str "40000"), ("currentPrice", .str "41000"),
               ("alertType", .str "ABOVE")]) (by decide)).2 (by decide)
    rw [h]
    rfl
  · have h := (userNotificationHandler_message_rule
        (.obj [("userId", .str "user123"), ("message", .str "custom text")])
        (by decide)).1 (by decide)
    rw [h]
    rfl

/-! ## Notification relay adapter
(src/app/src/infrastructure/adapters/NotificationAdapter.ts)

The outbound `axios.post` is an external collaborator, passed in as a
function whose result models resolution or rejection of the HTTP call. The
adapter's returned completion is the first component; the log lines emitted
via `console.error` are the second. -/

/-- `NotificationAdapter.sendNotification(currency, messageJson)`: await the
HTTP post inside `try`; on rejection, log and return normally. -/
def NotificationAdapter.sendNotification (post : String → JSValue → Except String Unit)
    (currency : String) (messageJson : JSValue) : Except String Unit × List String :=
  match post currency messageJson with
  | .ok _ => (.ok (), [])
  | .error e => (.ok (), ["Error notifying notification service: " ++ e])

/-- C9: for every currency and message, the relay adapter's returned
completion is success regardless of the outcome of the underlying HTTP post
— a relay failure never rejects (so it can never fail the broadcast or the
enclosing dispatch call) — and a failing post is logged. -/
theorem relay_failures_logged_and_swallowed (post : String → JSValue → Except String Unit)
    (currency : String) (messageJson : JSValue) :
    ((NotificationAdapter.sendNotification post currency messageJson).1 = .ok ()) ∧
    (∀ e, post currency messageJson = .error e →
      (NotificationAdapter.sendNotification post currency messageJson).2 =
        ["Error notifying notification service: " ++ e]) := by
  constructor
  · cases hp : post currency messageJson with
    | ok v => simp [NotificationAdapter.sendNotification, hp]
    | error e => simp [NotificationAdapter.sendNotification, hp]
  · intro e he
    simp [NotificationAdapter.sendNotification, he]

/-- Witness for C9: a post that rejects with `ECONNREFUSED` still yields a
successful completion, and the failure is logged. -/
theorem relay_failures_logged_and_swallowed_witness :
    (NotificationAdapter.sendNotification (fun _ _ => .error "ECONNREFUSED") "eur"
        (.str "m")).1 = .ok () ∧
    (NotificationAdapter.sendNotification (fun _ _ => .error "ECONNREFUSED") "eur"
        (.str "m")).2 = ["Error notifying notification service: ECONNREFUSED"] := by
  constructor
  · exact (relay_failures_logged_and_swallowed
      (fun _ _ => .error "ECONNREFUSED") "eur" (.str "m")).1
  · exact (relay_failures_logged_and_swallowed
      (fun _ _ => .error "ECONNREFUSED") "eur" (.str "m")).2 "ECONNREFUSED" rfl

end EventDispatcherSpec
